import Mathlib

/-!
Shallow embedding of the bga-cards CardManager (src/src/card-manager.ts) and the
parts of CardStock it interacts with.

Modelling conventions:
- The DOM is a heap of element records (`Elem`), each with a unique reference
  number `ref` (standing for the JavaScript object reference), a string `id`
  attribute, a rendered-side data attribute, the content last written to its
  front and back face sub-elements, and an `attached` flag telling whether the
  element is currently attached to the document. `document.getElementById`
  only finds attached elements.
- The caller-supplied population hooks (setupDiv, setupFrontDiv, setupBackDiv)
  are modelled as always supplied: invoking a hook writes the card value into
  the corresponding content field of the element and emits an `Event` that
  records the card, the element reference and whether the element was attached
  to the document at the moment of the call.
- `setTimeout` is modelled by a queue of delayed tasks carrying the captured
  element reference; `elapse` advances time and fires the due tasks.
- A thrown JavaScript error is modelled by the `err` field of `OpResult`; the
  state field holds the mutations performed before the throw, as in JS.
- The manager is modelled with its default settings for getId and
  isCardVisible (no getId or isCardVisible setting supplied), matching the
  claims, which all concern the default behavior.
-/

namespace BgaCards

/-- A JavaScript value, for the loosely typed fields read through an any-cast. -/
inductive JSVal where
  | vBool (b : Bool)
  | vNum (n : Int)
  | vStr (s : String)
  | vNull
deriving DecidableEq, Repr

/-- JavaScript truthiness of a value. -/
def JSVal.truthy : JSVal → Bool
  | .vBool b => b
  | .vNum n => decide (n ≠ 0)
  | .vStr s => decide (s ≠ "")
  | .vNull => false

/-- Whether a value is nullish (null); an absent field is modelled by `Option.none`. -/
def JSVal.nullish : JSVal → Bool
  | .vNull => true
  | _ => false

/-- A card value: an `id` field, an optional `type` field (read through an
any-cast by the default isCardVisible), and an opaque payload distinguishing
two card values that share an id but carry different data. -/
structure Card where
  id : Int
  type : Option JSVal := none
  payload : Nat := 0
deriving DecidableEq, Repr

/-- The rendered side recorded in the dataset.side attribute. -/
inductive Side where
  | front
  | back
deriving DecidableEq, Repr

/-- A DOM element created for a card: reference number, id attribute, rendered
side, content of the main div and of the front and back face sub-elements
(the card last written by the corresponding hook), and attachment status. -/
structure Elem where
  ref : Nat
  id : String
  side : Side
  divContent : Option Card
  frontContent : Option Card
  backContent : Option Card
  attached : Bool
deriving DecidableEq, Repr

/-- The body of a callback passed to setTimeout in setCardVisible. -/
inductive DelayedAction where
  | refreshFront (c : Card)
  | refreshBack (c : Card)
deriving DecidableEq, Repr

/-- A pending setTimeout callback: absolute due time, captured element
reference, and the action to run. -/
structure DelayedTask where
  dueAt : Nat
  ref : Nat
  action : DelayedAction
deriving DecidableEq, Repr

/-- A card stock, reduced to the state the CardManager interacts with: its
ordered sequence of card values. -/
structure Stock where
  cards : List Card
deriving DecidableEq, Repr

/-- The whole mutable state: the element heap, the registered stocks (in
registration order), the pending timeout queue, the current time and the next
fresh element reference. -/
structure State where
  elems : List Elem
  stocks : List Stock
  tasks : List DelayedTask
  now : Nat
  nextRef : Nat
deriving DecidableEq, Repr

/-- Observable events emitted by an operation, in order of occurrence:
invocations of the caller-supplied hooks (with the attachment status of the
element at the moment of the call), the cardRemoved notification to a stock
(by stock index), and the renaming and detaching of an element. -/
inductive Event where
  | hookSetupDiv (c : Card) (ref : Nat) (attachedAtCall : Bool)
  | hookSetupFront (c : Card) (ref : Nat) (attachedAtCall : Bool)
  | hookSetupBack (c : Card) (ref : Nat) (attachedAtCall : Bool)
  | stockCardRemoved (stockIdx : Nat) (c : Card)
  | elemRenamed (ref : Nat) (newId : String)
  | elemDetached (ref : Nat)
deriving DecidableEq, Repr

/-- A thrown JavaScript error. -/
inductive JSError where
  | duplicateCard (id : String)
  | typeError (msg : String)
deriving DecidableEq, Repr

/-- Result of one manager operation: the state after it (including the
mutations performed before a throw), the events it emitted synchronously, the
error it threw if any, and the reference of the element it returned if any. -/
structure OpResult where
  state : State
  events : List Event
  err : Option JSError
  retRef : Option Nat
deriving DecidableEq, Repr

/-- CardManager.getId with no getId setting supplied:
returns the string card- followed by the id field. -/
def getId (c : Card) : String :=
  "card-" ++ toString c.id

/-- document.getElementById: the first attached element with the given id. -/
def getElementById (s : State) (id : String) : Option Elem :=
  s.elems.find? (fun e => e.attached && e.id == id)

/-- CardManager.getCardElement: document.getElementById(this.getId(card)). -/
def getCardElement (s : State) (c : Card) : Option Elem :=
  getElementById s (getId c)

/-- Mutate the element(s) bearing the given reference in place. -/
def updateElem (s : State) (r : Nat) (f : Elem → Elem) : State :=
  { s with elems := s.elems.map (fun e => if e.ref == r then f e else e) }

/-- Dereference an element by its reference number. -/
def getElemByRef (s : State) (r : Nat) : Option Elem :=
  s.elems.find? (fun e => e.ref == r)

/-- Modelled from the spec: CardStock.contains is not under src (only its
declaration is); the spec says pure reads over the current sequence, matched
by identity. -/
def Stock.containsCard (st : Stock) (c : Card) : Bool :=
  st.cards.any (fun c2 => getId c2 == getId c)

/-- Modelled from the spec: CardStock.getCards is not under src; the spec says
it is a pure read of the current sequence. -/
def Stock.getCards (st : Stock) : List Card :=
  st.cards

/-- Modelled from the spec: CardStock.cardRemoved is not under src; the spec
says the stock must drop the card from its internal sequence. -/
def Stock.cardRemoved (st : Stock) (c : Card) : Stock :=
  { st with cards := st.cards.filter (fun c2 => getId c2 != getId c) }

/-- CardManager.getCardStock: this.stocks.find(stock => stock.contains(card)),
returned as the index of the first registered stock containing the card. -/
def getCardStock (s : State) (c : Card) : Option Nat :=
  s.stocks.findIdx? (fun st => st.containsCard c)

/-- CardManager.isCardVisible with no isCardVisible setting supplied:
returns (card as any).type ?? false, i.e. the raw type field value unless it
is nullish or absent, in which case the boolean false. -/
def isCardVisibleVal (c : Card) : JSVal :=
  match c.type with
  | none => .vBool false
  | some v => if v.nullish then .vBool false else v

/-- CardManager.createCardElement. Follows the source line by line: compute
the id and side, throw if an element with the computed id already exists,
create the element, append it to document.body, run the three population
hooks, remove it from document.body and return it. -/
def createCardElement (s : State) (c : Card) (visible : Bool) : OpResult :=
  let id := getId c
  let sd := if visible then Side.front else Side.back
  match getCardElement s c with
  | some _ =>
      { state := s, events := [], err := some (.duplicateCard id), retRef := none }
  | none =>
      let r := s.nextRef
      -- document.createElement("div"); element.id = id; element.dataset.side = side;
      -- element.innerHTML = front/back face sub-elements; element.classList.add
      let e0 : Elem :=
        { ref := r, id := id, side := sd, divContent := none,
          frontContent := none, backContent := none, attached := false }
      -- document.body.appendChild(element)
      let e1 := { e0 with attached := true }
      -- the three population hooks run here, while the element is attached
      let evs := [Event.hookSetupDiv c r e1.attached,
                  Event.hookSetupFront c r e1.attached,
                  Event.hookSetupBack c r e1.attached]
      let e2 := { e1 with divContent := some c, frontContent := some c,
                          backContent := some c }
      -- document.body.removeChild(element)
      let e3 := { e2 with attached := false }
      { state := { s with elems := s.elems ++ [e3], nextRef := r + 1 },
        events := evs, err := none, retRef := some r }

/-- CardManager.removeCard: look the element up by id; if absent return; else
notify the owning stock (if any) via cardRemoved, then rename the element to
deleted followed by the old id, and detach it from the document. -/
def removeCard (s : State) (c : Card) : OpResult :=
  let id := getId c
  match getElementById s id with
  | none => { state := s, events := [], err := none, retRef := none }
  | some div =>
      let stepNotify : State × List Event :=
        match getCardStock s c with
        | none => (s, [])
        | some i =>
            match s.stocks.get? i with
            | none => (s, [])
            | some st =>
                ({ s with stocks := s.stocks.set i (st.cardRemoved c) },
                 [Event.stockCardRemoved i c])
      let s1 := stepNotify.1
      -- div.id is set to the string deleted followed by the old id
      let s2 := updateElem s1 div.ref (fun e => { e with id := "deleted" ++ id })
      -- div.remove()
      let s3 := updateElem s2 div.ref (fun e => { e with attached := false })
      { state := s3,
        events := stepNotify.2 ++
          [Event.elemRenamed div.ref ("deleted" ++ id), Event.elemDetached div.ref],
        err := none, retRef := none }

/-- The FlipCardSettings object; a `none` field stands for an absent property. -/
structure FlipCardSettings where
  updateData : Option Bool := none
  updateFront : Option Bool := none
  updateBack : Option Bool := none
  updateFrontDelay : Option Nat := none
  updateBackDelay : Option Nat := none
deriving DecidableEq, Repr

/-- Run the setupFrontDiv hook on the element referenced by r (as the
setTimeout callback or the synchronous call in setCardVisible does, through
the captured element reference). -/
def applyFrontHook (s : State) (r : Nat) (c : Card) : State × List Event :=
  let att := match getElemByRef s r with
             | some e => e.attached
             | none => false
  (updateElem s r (fun e => { e with frontContent := some c }),
   [Event.hookSetupFront c r att])

/-- Run the setupBackDiv hook on the element referenced by r. -/
def applyBackHook (s : State) (r : Nat) (c : Card) : State × List Event :=
  let att := match getElemByRef s r with
             | some e => e.attached
             | none => false
  (updateElem s r (fun e => { e with backContent := some c }),
   [Event.hookSetupBack c r att])

/-- The updateFront block of CardManager.setCardVisible: when updateFront
(default true), either schedule the front face refresh after updateFrontDelay
(default 500) when the card turns face-down and the delay is positive, or run
setupFrontDiv at once. -/
def frontStep (s1 : State) (elRef : Nat) (c : Card) (isVisible : Bool)
    (settings : Option FlipCardSettings) : State × List Event :=
  if (settings.bind (fun f => f.updateFront)).getD true then
    let d := (settings.bind (fun f => f.updateFrontDelay)).getD 500
    if !isVisible && decide (0 < d) then
      ({ s1 with tasks := s1.tasks ++ [⟨s1.now + d, elRef, .refreshFront c⟩] }, [])
    else
      applyFrontHook s1 elRef c
  else (s1, [])

/-- The updateBack block of CardManager.setCardVisible: when updateBack
(default false), either schedule the back face refresh after updateBackDelay
(default 0) when the card turns face-up and the delay is positive, or run
setupBackDiv at once. -/
def backStep (s2 : State) (elRef : Nat) (c : Card) (isVisible : Bool)
    (settings : Option FlipCardSettings) : State × List Event :=
  if (settings.bind (fun f => f.updateBack)).getD false then
    let d := (settings.bind (fun f => f.updateBackDelay)).getD 0
    if isVisible && decide (0 < d) then
      ({ s2 with tasks := s2.tasks ++ [⟨s2.now + d, elRef, .refreshBack c⟩] }, [])
    else
      applyBackHook s2 elRef c
  else (s2, [])

/-- The updateData block of CardManager.setCardVisible: when updateData
(default true), read the owning stock unconditionally (throwing a TypeError
when there is none, as stock.getCards() does on undefined), find the index of
the entry with the same id in its card sequence, and splice the new card
value over that entry. -/
def dataStep (s3 : State) (c : Card) (evs : List Event)
    (settings : Option FlipCardSettings) : OpResult :=
  if (settings.bind (fun f => f.updateData)).getD true then
    match getCardStock s3 c with
    | none =>
        { state := s3, events := evs,
          err := some (.typeError "cannot read getCards of undefined"), retRef := none }
    | some i =>
        match s3.stocks.get? i with
        | none =>
            { state := s3, events := evs,
              err := some (.typeError "cannot read getCards of undefined"), retRef := none }
        | some st =>
            match st.getCards.findIdx? (fun c2 => getId c2 == getId c) with
            | none => { state := s3, events := evs, err := none, retRef := none }
            | some j =>
                { state := { s3 with stocks := s3.stocks.set i { st with cards := st.cards.set j c } },
                  events := evs, err := none, retRef := none }
  else { state := s3, events := evs, err := none, retRef := none }

/-- The assignment element.dataset.side = isVisible ? front : back in
CardManager.setCardVisible. -/
def sideSet (s : State) (r : Nat) (isVisible : Bool) : State :=
  updateElem s r
    (fun e => { e with side := if isVisible then Side.front else Side.back })

/-- CardManager.setCardVisible. Follows the source block by block: early
return when the element is absent; set dataset.side from the requested or
computed visibility; then the updateFront, updateBack and updateData blocks. -/
def setCardVisible (s : State) (c : Card) (visible : Option Bool)
    (settings : Option FlipCardSettings) : OpResult :=
  match getCardElement s c with
  | none => { state := s, events := [], err := none, retRef := none }
  | some el =>
      let isVisible := visible.getD (isCardVisibleVal c).truthy
      let p2 := frontStep (sideSet s el.ref isVisible) el.ref c isVisible settings
      let p3 := backStep p2.1 el.ref c isVisible settings
      dataStep p3.1 c (p2.2 ++ p3.2) settings

/-- CardManager.flipCard: reads element.dataset.side without a null check
(throwing a TypeError when the element is absent), then delegates to
setCardVisible with the opposite side. -/
def flipCard (s : State) (c : Card) (settings : Option FlipCardSettings) : OpResult :=
  match getCardElement s c with
  | none =>
      { state := s, events := [],
        err := some (.typeError "cannot read dataset of null"), retRef := none }
  | some el =>
      let currentlyVisible := el.side == Side.front
      setCardVisible s c (some (!currentlyVisible)) settings

/-- Fire one delayed task (the body of a setTimeout callback). -/
def runTask (s : State) (t : DelayedTask) : State × List Event :=
  match t.action with
  | .refreshFront c => applyFrontHook s t.ref c
  | .refreshBack c => applyBackHook s t.ref c

/-- Advance the clock by d time units and fire, in queue order, every pending
task whose due time has been reached. -/
def elapse (s : State) (d : Nat) : State × List Event :=
  let now2 := s.now + d
  let due := s.tasks.filter (fun t => decide (t.dueAt ≤ now2))
  let rest := s.tasks.filter (fun t => ! decide (t.dueAt ≤ now2))
  due.foldl
    (fun acc t =>
      let r := runTask acc.1 t
      (r.1, acc.2 ++ r.2))
    ({ s with tasks := rest, now := now2 }, [])

/-! Concrete fixtures used by the witness and counterexample theorems. -/

/-- A concrete card with id 5 and no type field. -/
def demoCard : Card := { id := 5 }

/-- The same id as demoCard but different payload: updated data for the card. -/
def demoCard2 : Card := { id := 5, payload := 1 }

/-- The empty initial state. -/
def demoEmpty : State :=
  { elems := [], stocks := [], tasks := [], now := 0, nextRef := 0 }

/-- An element for demoCard, attached to the document. -/
def demoElem : Elem :=
  { ref := 0, id := "card-5", side := Side.front, divContent := none,
    frontContent := some demoCard, backContent := none, attached := true }

/-- A state holding the attached demoElem and no stocks. -/
def demoAttached : State :=
  { elems := [demoElem], stocks := [], tasks := [], now := 0, nextRef := 1 }

/-- A state holding the attached demoElem and one stock containing demoCard. -/
def demoWithStock : State :=
  { elems := [demoElem], stocks := [{ cards := [demoCard] }], tasks := [],
    now := 0, nextRef := 1 }

/-! Helper lemmas about the embedding, shared by the claim theorems. -/

theorem find?_map_of_pred_false {α : Type} {l : List α} {p : α → Bool}
    {g : α → α} (h : ∀ e ∈ l, p (g e) = false) :
    (l.map g).find? p = none := by
  apply List.find?_eq_none.mpr
  intro x hx
  obtain ⟨e, he, rfl⟩ := List.mem_map.mp hx
  simp [h e he]

theorem find?_map_comm {l : List Elem} {r : Nat} {f : Elem → Elem}
    (hf : ∀ e, (f e).ref = e.ref) :
    (l.map (fun e => if e.ref == r then f e else e)).find? (fun e => e.ref == r)
      = (l.find? (fun e => e.ref == r)).map f := by
  induction l with
  | nil => rfl
  | cons a l ih =>
      by_cases ha : a.ref = r
      · simp [List.find?, ha, hf]
      · simp only [List.map_cons]
        rw [if_neg (by simp [ha])]
        rw [List.find?_cons_of_neg _ (by simp [ha]),
            List.find?_cons_of_neg _ (by simp [ha])]
        exact ih

theorem map_map_ite {l : List Elem} {r : Nat} {f g : Elem → Elem}
    (hf : ∀ e, (f e).ref = e.ref) :
    (l.map (fun e => if e.ref == r then f e else e)).map
        (fun e => if e.ref == r then g e else e)
      = l.map (fun e => if e.ref == r then g (f e) else e) := by
  rw [List.map_map]
  apply List.map_congr_left
  intro e _
  by_cases he : e.ref = r
  · simp [he, hf]
  · simp [he]

theorem updateElem_updateElem {s : State} {r : Nat} {f g : Elem → Elem}
    (hf : ∀ e, (f e).ref = e.ref) :
    updateElem (updateElem s r f) r g = updateElem s r (fun e => g (f e)) := by
  simp only [updateElem]
  rw [map_map_ite hf]

theorem getElemByRef_updateElem {s : State} {r : Nat} {f : Elem → Elem}
    (hf : ∀ e, (f e).ref = e.ref) :
    getElemByRef (updateElem s r f) r = (getElemByRef s r).map f := by
  simp only [getElemByRef, updateElem]
  exact find?_map_comm hf

theorem updateElem_stocks (s : State) (r : Nat) (f : Elem → Elem) :
    (updateElem s r f).stocks = s.stocks := rfl

theorem updateElem_tasks (s : State) (r : Nat) (f : Elem → Elem) :
    (updateElem s r f).tasks = s.tasks := rfl

theorem updateElem_now (s : State) (r : Nat) (f : Elem → Elem) :
    (updateElem s r f).now = s.now := rfl

theorem getCardStock_congr {s1 s2 : State} (c : Card)
    (h : s1.stocks = s2.stocks) : getCardStock s1 c = getCardStock s2 c := by
  simp [getCardStock, h]

theorem getCardElement_congr {s1 s2 : State} (c : Card)
    (h : s1.elems = s2.elems) : getCardElement s1 c = getCardElement s2 c := by
  simp [getCardElement, getElementById, h]

theorem applyFrontHook_stocks (s : State) (r : Nat) (c : Card) :
    (applyFrontHook s r c).1.stocks = s.stocks := by
  simp [applyFrontHook, updateElem_stocks]

theorem applyBackHook_stocks (s : State) (r : Nat) (c : Card) :
    (applyBackHook s r c).1.stocks = s.stocks := by
  simp [applyBackHook, updateElem_stocks]

theorem frontStep_stocks (s1 : State) (r : Nat) (c : Card) (iv : Bool)
    (settings : Option FlipCardSettings) :
    (frontStep s1 r c iv settings).1.stocks = s1.stocks := by
  unfold frontStep
  split
  · dsimp only
    split
    · rfl
    · exact applyFrontHook_stocks ..
  · rfl

theorem backStep_stocks (s2 : State) (r : Nat) (c : Card) (iv : Bool)
    (settings : Option FlipCardSettings) :
    (backStep s2 r c iv settings).1.stocks = s2.stocks := by
  unfold backStep
  split
  · dsimp only
    split
    · rfl
    · exact applyBackHook_stocks ..
  · rfl

theorem dataStep_elems (s3 : State) (c : Card) (evs : List Event)
    (settings : Option FlipCardSettings) :
    (dataStep s3 c evs settings).state.elems = s3.elems := by
  unfold dataStep
  split
  · split
    · rfl
    · split
      · rfl
      · split <;> rfl
  · rfl

theorem dataStep_tasks (s3 : State) (c : Card) (evs : List Event)
    (settings : Option FlipCardSettings) :
    (dataStep s3 c evs settings).state.tasks = s3.tasks := by
  unfold dataStep
  split
  · split
    · rfl
    · split
      · rfl
      · split <;> rfl
  · rfl

theorem dataStep_now (s3 : State) (c : Card) (evs : List Event)
    (settings : Option FlipCardSettings) :
    (dataStep s3 c evs settings).state.now = s3.now := by
  unfold dataStep
  split
  · split
    · rfl
    · split
      · rfl
      · split <;> rfl
  · rfl

theorem dataStep_events (s3 : State) (c : Card) (evs : List Event)
    (settings : Option FlipCardSettings) :
    (dataStep s3 c evs settings).events = evs := by
  unfold dataStep
  split
  · split
    · rfl
    · split
      · rfl
      · split <;> rfl
  · rfl

theorem findIdx?_spec {α : Type} {l : List α} {p : α → Bool} {i : Nat}
    (h : l.findIdx? p = some i) :
    i < l.length ∧ ∀ x, l.get? i = some x → p x = true := by
  induction l generalizing i with
  | nil => simp [List.findIdx?] at h
  | cons a l ih =>
      rw [List.findIdx?_cons] at h
      by_cases hp : p a
      · simp [hp] at h
        subst h
        refine ⟨by simp, ?_⟩
        intro x hx
        simp [List.get?] at hx
        subst hx
        exact hp
      · simp [hp] at h
        obtain ⟨j, hj, rfl⟩ := h
        obtain ⟨hlen, hget⟩ := ih hj
        refine ⟨by simpa using hlen, ?_⟩
        intro x hx
        exact hget x (by simpa [List.get?] using hx)

theorem any_findIdx?_isSome {α : Type} {l : List α} {p : α → Bool}
    (h : l.any p = true) : ∃ j, l.findIdx? p = some j := by
  induction l with
  | nil => simp at h
  | cons a l ih =>
      rw [List.findIdx?_cons]
      by_cases hp : p a = true
      · exact ⟨0, by simp [hp]⟩
      · have hp2 : p a = false := by simpa using hp
        rw [List.any_cons, hp2, Bool.false_or] at h
        obtain ⟨j, hj⟩ := ih h
        exact ⟨j + 1, by simp [hp2, hj]⟩

theorem get?_set_self {α : Type} {l : List α} {i : Nat} {a : α}
    (h : i < l.length) : (l.set i a).get? i = some a := by
  induction l generalizing i with
  | nil => simp at h
  | cons b l ih =>
      cases i with
      | zero => rfl
      | succ j =>
          simp only [List.set, List.get?]
          exact ih (by simpa using h)

theorem sideSet_stocks (s : State) (r : Nat) (iv : Bool) :
    (sideSet s r iv).stocks = s.stocks := rfl

theorem sideSet_tasks (s : State) (r : Nat) (iv : Bool) :
    (sideSet s r iv).tasks = s.tasks := rfl

theorem sideSet_now (s : State) (r : Nat) (iv : Bool) :
    (sideSet s r iv).now = s.now := rfl

theorem pre_stocks (s : State) (r : Nat) (c : Card) (iv : Bool)
    (settings : Option FlipCardSettings) :
    (backStep (frontStep (sideSet s r iv) r c iv settings).1 r c iv
      settings).1.stocks = s.stocks := by
  rw [backStep_stocks, frontStep_stocks, sideSet_stocks]

theorem dataStep_err_no_stock {s3 : State} {c : Card} {evs : List Event}
    (hcs : getCardStock s3 c = none) :
    dataStep s3 c evs none =
      { state := s3, events := evs,
        err := some (.typeError "cannot read getCards of undefined"),
        retRef := none } := by
  unfold dataStep
  simp [hcs]

theorem dataStep_splices {s3 : State} {c : Card} {evs : List Event}
    {settings : Option FlipCardSettings} {i j : Nat} {st : Stock}
    (hupd : (settings.bind (fun f => f.updateData)).getD true = true)
    (hcs : getCardStock s3 c = some i)
    (hg : s3.stocks.get? i = some st)
    (hj : st.cards.findIdx? (fun c2 => getId c2 == getId c) = some j) :
    dataStep s3 c evs settings =
      { state := { s3 with stocks := s3.stocks.set i { st with cards := st.cards.set j c } },
        events := evs, err := none, retRef := none } := by
  unfold dataStep
  rw [hupd]
  simp only [if_true, hcs, hg, Stock.getCards, hj]

theorem cardRemoved_not_contains (st : Stock) (c : Card) :
    (st.cardRemoved c).containsCard c = false := by
  simp only [Stock.cardRemoved, Stock.containsCard]
  rw [List.any_eq_false]
  intro x hx
  have hm := List.mem_filter.mp hx
  simpa using hm.2

theorem removeCard_elem_transform (s : State) (r : Nat) (idStr : String) :
    updateElem (updateElem s r (fun e => { e with id := idStr })) r
        (fun e => { e with attached := false })
      = updateElem s r (fun e => { e with id := idStr, attached := false }) :=
  updateElem_updateElem (fun _ => rfl)

theorem getElemByRef_rename_detach (s : State) (r : Nat) (idStr : String) :
    getElemByRef (updateElem s r (fun e => { e with id := idStr, attached := false })) r
      = (getElemByRef s r).map (fun e => { e with id := idStr, attached := false }) :=
  getElemByRef_updateElem (fun _ => rfl)

theorem removeCard_noop {s : State} {c : Card}
    (h : getElementById s (getId c) = none) :
    removeCard s c = { state := s, events := [], err := none, retRef := none } := by
  unfold removeCard
  dsimp only
  rw [h]

theorem getElemByRef_congr {s1 s2 : State} (r : Nat) (h : s1.elems = s2.elems) :
    getElemByRef s1 r = getElemByRef s2 r := by
  simp [getElemByRef, h]

theorem getElemByRef_sideSet (s : State) (r : Nat) (iv : Bool) :
    getElemByRef (sideSet s r iv) r = (getElemByRef s r).map
      (fun e => { e with side := if iv then Side.front else Side.back }) :=
  getElemByRef_updateElem (fun _ => rfl)

theorem getElemByRef_setFront (s : State) (r : Nat) (c : Card) :
    getElemByRef (updateElem s r (fun e => { e with frontContent := some c })) r
      = (getElemByRef s r).map (fun e => { e with frontContent := some c }) :=
  getElemByRef_updateElem (fun _ => rfl)

theorem applyFrontHook_eq {s : State} {r : Nat} {e : Elem} (c : Card)
    (h : getElemByRef s r = some e) :
    applyFrontHook s r c =
      (updateElem s r (fun e2 => { e2 with frontContent := some c }),
       [.hookSetupFront c r e.attached]) := by
  unfold applyFrontHook
  rw [h]

theorem elapse_single {s : State} {t : DelayedTask} {d : Nat}
    (htasks : s.tasks = [t]) (hdue : t.dueAt ≤ s.now + d) :
    elapse s d = runTask { s with tasks := [], now := s.now + d } t := by
  unfold elapse
  rw [htasks]
  have h1 : decide (t.dueAt ≤ s.now + d) = true := decide_eq_true hdue
  simp [h1]

theorem getElemByRef_dataStep (s3 : State) (c : Card) (evs : List Event)
    (settings : Option FlipCardSettings) (r : Nat) :
    getElemByRef (dataStep s3 c evs settings).state r = getElemByRef s3 r :=
  getElemByRef_congr r (dataStep_elems s3 c evs settings)

/-! Claim theorems. -/

/-- Claim C1: for every card, createCardElement raises a synchronous
duplicate-identity error and creates no element (the state is unchanged) when
an element with the computed id already exists in the document, and succeeds
(no error, returning one freshly created element) when no such element
exists. -/
theorem createCardElement_duplicate_guard (s : State) (c : Card) (v : Bool) :
    (∀ el, getCardElement s c = some el →
      createCardElement s c v =
        { state := s, events := [],
          err := some (.duplicateCard (getId c)), retRef := none })
    ∧ (getCardElement s c = none →
      (createCardElement s c v).err = none
      ∧ (createCardElement s c v).retRef = some s.nextRef
      ∧ ∃ e, (createCardElement s c v).state.elems = s.elems ++ [e]
          ∧ e.id = getId c ∧ e.ref = s.nextRef) := by
  constructor
  · intro el hel
    simp [createCardElement, hel]
  · intro hnone
    unfold createCardElement
    rw [hnone]
    exact ⟨rfl, rfl, _, rfl, rfl, rfl⟩

/-- Witness for C1 at concrete inputs: the duplicate branch on a state already
holding an attached card-5 element, and the success branch on the empty
state. -/
theorem createCardElement_duplicate_guard_witness :
    createCardElement demoAttached demoCard true =
      { state := demoAttached, events := [],
        err := some (.duplicateCard "card-5"), retRef := none }
    ∧ (createCardElement demoEmpty demoCard true).err = none := by
  constructor
  · have h := (createCardElement_duplicate_guard demoAttached demoCard true).1
      demoElem (by decide)
    rw [h]
    decide
  · exact ((createCardElement_duplicate_guard demoEmpty demoCard true).2 rfl).1

/-- Claim C3, counterexample: for a card with no materialized element,
flipCard is not a silent no-op: on the empty state it throws a TypeError
(reading dataset.side of null). -/
theorem flipCard_missing_element_throws :
    getCardElement demoEmpty demoCard = none
    ∧ (flipCard demoEmpty demoCard none).err =
        some (.typeError "cannot read dataset of null") := by
  constructor
  · rfl
  · decide

/-- Claim C3, amended: for every card with no materialized element,
setCardVisible is a silent no-op (no error, no events, state unchanged),
while flipCard leaves the state unchanged but throws a TypeError because it
reads the rendered side of the missing element without a null check. -/
theorem missing_element_paths (s : State) (c : Card) (visible : Option Bool)
    (settings : Option FlipCardSettings)
    (h : getCardElement s c = none) :
    setCardVisible s c visible settings =
      { state := s, events := [], err := none, retRef := none }
    ∧ flipCard s c settings =
      { state := s, events := [],
        err := some (.typeError "cannot read dataset of null"), retRef := none } := by
  constructor
  · unfold setCardVisible
    rw [h]
  · unfold flipCard
    rw [h]

/-- Witness for the amended C3 at a concrete input: the empty state and the
card with id 5. -/
theorem missing_element_paths_witness :
    setCardVisible demoEmpty demoCard none none =
      { state := demoEmpty, events := [], err := none, retRef := none }
    ∧ flipCard demoEmpty demoCard none =
      { state := demoEmpty, events := [],
        err := some (.typeError "cannot read dataset of null"), retRef := none } :=
  missing_element_paths demoEmpty demoCard none none rfl

/-- Claim C4, counterexample: createCardElement does not invoke the population
hooks while the element is detached from the document: on the empty state and
the card with id 5, all three hooks are invoked with the element attached
(the attachedAtCall flag of every hook event is true). -/
theorem create_hooks_run_attached :
    (createCardElement demoEmpty demoCard true).events =
      [.hookSetupDiv demoCard 0 true, .hookSetupFront demoCard 0 true,
       .hookSetupBack demoCard 0 true]
    ∧ ¬ ((createCardElement demoEmpty demoCard true).events.all
          (fun ev => match ev with
            | .hookSetupDiv _ _ a => !a
            | .hookSetupFront _ _ a => !a
            | .hookSetupBack _ _ a => !a
            | _ => true) = true) := by
  constructor
  · decide
  · decide

/-- Claim C4, amended: for every card with no element of the computed id in
the document, createCardElement invokes all three caller-supplied population
hooks while the element is temporarily attached to the document body, and
returns the element detached from the document. -/
theorem create_hooks_attached_returns_detached (s : State) (c : Card) (v : Bool)
    (h : getCardElement s c = none) :
    (createCardElement s c v).events =
      [.hookSetupDiv c s.nextRef true, .hookSetupFront c s.nextRef true,
       .hookSetupBack c s.nextRef true]
    ∧ (createCardElement s c v).retRef = some s.nextRef
    ∧ ∃ e, (createCardElement s c v).state.elems = s.elems ++ [e]
        ∧ e.ref = s.nextRef ∧ e.attached = false := by
  unfold createCardElement
  rw [h]
  exact ⟨rfl, rfl, _, rfl, rfl, rfl⟩

/-- Witness for the amended C4 at a concrete input: the empty state and the
card with id 5. -/
theorem create_hooks_attached_returns_detached_witness :
    (createCardElement demoEmpty demoCard true).events =
      [.hookSetupDiv demoCard 0 true, .hookSetupFront demoCard 0 true,
       .hookSetupBack demoCard 0 true]
    ∧ (createCardElement demoEmpty demoCard true).retRef = some 0 :=
  ⟨(create_hooks_attached_returns_detached demoEmpty demoCard true rfl).1,
   (create_hooks_attached_returns_detached demoEmpty demoCard true rfl).2.1⟩

/-- Claim C8: with no getId setting supplied, getId derives the id
deterministically from the id field as the string card- followed by it; for
the card with id 5 the computed identity is card-5, and createCardElement
produces an element carrying that identity. -/
theorem getId_default_derivation :
    (∀ c : Card, getId c = "card-" ++ toString c.id)
    ∧ getId demoCard = "card-5"
    ∧ (∃ e, (createCardElement demoEmpty demoCard true).state.elems = [e]
        ∧ e.id = "card-5"
        ∧ (createCardElement demoEmpty demoCard true).retRef = some e.ref) := by
  refine ⟨fun c => rfl, by decide, ?_⟩
  exact ⟨_, rfl, by decide, rfl⟩

/-- Claim C9, counterexample: with no isCardVisible setting supplied,
isCardVisible of a card whose type field is the number 1 returns the number 1
itself, which is truthy but is not a boolean, refuting the claim that the
default returns a boolean equal to the truthiness of the type field. -/
theorem isCardVisible_default_not_boolean :
    isCardVisibleVal { id := 1, type := some (.vNum 1) } = .vNum 1
    ∧ (isCardVisibleVal { id := 1, type := some (.vNum 1) }).truthy = true
    ∧ isCardVisibleVal { id := 1, type := some (.vNum 1) } ≠ .vBool true := by
  refine ⟨rfl, rfl, ?_⟩
  decide

/-- Claim C9, amended: with no isCardVisible setting supplied, the default
returns the raw value of the type field when it is present and not nullish
(so the truthiness of the result always equals the truthiness of the type
field), and the boolean false when the type field is absent or nullish; the
result is not necessarily a boolean. -/
theorem isCardVisible_default_truthiness (c : Card) :
    (c.type = none → isCardVisibleVal c = .vBool false)
    ∧ (∀ v, c.type = some v → v.nullish = true → isCardVisibleVal c = .vBool false)
    ∧ (∀ v, c.type = some v → v.nullish = false → isCardVisibleVal c = v)
    ∧ (isCardVisibleVal c).truthy =
        (match c.type with
         | none => false
         | some v => if v.nullish then false else v.truthy) := by
  refine ⟨?_, ?_, ?_, ?_⟩
  · intro h
    simp [isCardVisibleVal, h]
  · intro v hv hn
    simp [isCardVisibleVal, hv, hn]
  · intro v hv hn
    simp [isCardVisibleVal, hv, hn]
  · cases h : c.type with
    | none => simp [isCardVisibleVal, h, JSVal.truthy]
    | some v =>
        by_cases hn : v.nullish = true
        · simp [isCardVisibleVal, h, hn, JSVal.truthy]
        · have hn2 : v.nullish = false := by simpa using hn
          simp [isCardVisibleVal, h, hn2]

/-- Witness for the amended C9 at concrete inputs: a card without a type
field, a card with a null type field, and a card with the number 1 as type
field. -/
theorem isCardVisible_default_truthiness_witness :
    isCardVisibleVal { id := 0 } = .vBool false
    ∧ isCardVisibleVal { id := 0, type := some .vNull } = .vBool false
    ∧ isCardVisibleVal { id := 0, type := some (.vNum 1) } = .vNum 1 :=
  ⟨(isCardVisible_default_truthiness { id := 0 }).1 rfl,
   (isCardVisible_default_truthiness { id := 0, type := some .vNull }).2.1
     .vNull rfl rfl,
   (isCardVisible_default_truthiness { id := 0, type := some (.vNum 1) }).2.2.1
     (.vNum 1) rfl rfl⟩


/-- Claim C10: for every card that has a materialized element but is
contained in no registered stock, setCardVisible with default settings
(updateData defaulting to on) throws a TypeError instead of completing,
because the owning-stock lookup yields no stock and stock.getCards() is then
read unconditionally. -/
theorem setCardVisible_no_stock_throws (s : State) (c : Card) (el : Elem)
    (visible : Option Bool)
    (hel : getCardElement s c = some el)
    (hst : getCardStock s c = none) :
    (setCardVisible s c visible none).err =
      some (.typeError "cannot read getCards of undefined") := by
  unfold setCardVisible
  rw [hel]
  dsimp only
  rw [dataStep_err_no_stock
    ((getCardStock_congr c (pre_stocks s el.ref c
      (visible.getD (isCardVisibleVal c).truthy) none)).trans hst)]

/-- Witness for C10 at a concrete input: a state holding an attached card-5
element and no registered stocks. -/
theorem setCardVisible_no_stock_throws_witness :
    (setCardVisible demoAttached demoCard (some true) none).err =
      some (.typeError "cannot read getCards of undefined") :=
  setCardVisible_no_stock_throws demoAttached demoCard demoElem (some true)
    (by decide) rfl

/-- Claim C5: for every card whose element exists, removeCard notifies the
owning stock (emitting the cardRemoved notification, which drops the card
from the stock sequence) strictly before the element is renamed and detached,
as witnessed by the order of the emitted events; for every card whose element
does not exist, removeCard is a no-op that notifies no stock and changes
nothing. -/
theorem removeCard_notifies_then_detaches (s : State) (c : Card) :
    (∀ el i st, getElementById s (getId c) = some el →
       getCardStock s c = some i → s.stocks.get? i = some st →
       (removeCard s c).events =
         [.stockCardRemoved i c, .elemRenamed el.ref ("deleted" ++ getId c),
          .elemDetached el.ref]
       ∧ (removeCard s c).state.stocks = s.stocks.set i (st.cardRemoved c)
       ∧ (st.cardRemoved c).containsCard c = false
       ∧ getElemByRef (removeCard s c).state el.ref =
           (getElemByRef s el.ref).map
             (fun e => { e with id := "deleted" ++ getId c, attached := false }))
    ∧ (getElementById s (getId c) = none →
        removeCard s c = { state := s, events := [], err := none, retRef := none }) := by
  constructor
  · intro el i st hel hi hst
    unfold removeCard
    dsimp only
    rw [hel, hi]
    dsimp only
    rw [hst]
    dsimp only
    refine ⟨rfl, ?_, cardRemoved_not_contains st c, ?_⟩
    · rw [updateElem_stocks, updateElem_stocks]
    · rw [removeCard_elem_transform, getElemByRef_rename_detach]
      rfl
  · intro hnone
    exact removeCard_noop hnone

/-- Witness for C5 at a concrete input: a state holding the attached card-5
element and one stock containing the card; the notification event precedes
the rename and detach events, and the stock sequence drops the card. -/
theorem removeCard_notifies_then_detaches_witness :
    (removeCard demoWithStock demoCard).events =
      [.stockCardRemoved 0 demoCard, .elemRenamed 0 "deletedcard-5",
       .elemDetached 0]
    ∧ (removeCard demoWithStock demoCard).state.stocks = [{ cards := [] }] := by
  have h := (removeCard_notifies_then_detaches demoWithStock demoCard).1
    demoElem 0 { cards := [demoCard] } (by decide) (by decide) rfl
  constructor
  · rw [h.1]
    decide
  · rw [h.2.1]
    decide

/-- Claim C6: for every card with a materialized element that is contained in
a registered stock, setCardVisible with data replacement enabled replaces the
stored card value in that stock sequence at the positional index of the entry
with the same id; the sequence keeps its length, every other entry is
unchanged, and every other stock is unchanged. -/
theorem setCardVisible_updates_stock_data (s : State) (c : Card) (el : Elem)
    (visible : Option Bool) (settings : Option FlipCardSettings)
    (i : Nat) (st : Stock)
    (hel : getCardElement s c = some el)
    (hst : getCardStock s c = some i)
    (hget : s.stocks.get? i = some st)
    (hupd : (settings.bind (fun f => f.updateData)).getD true = true) :
    ∃ j, st.cards.findIdx? (fun c2 => getId c2 == getId c) = some j
      ∧ (setCardVisible s c visible settings).state.stocks
          = s.stocks.set i { st with cards := st.cards.set j c }
      ∧ (st.cards.set j c).length = st.cards.length
      ∧ (st.cards.set j c).get? j = some c
      ∧ (∀ k, k ≠ j → (st.cards.set j c).get? k = st.cards.get? k)
      ∧ (∀ i2, i2 ≠ i →
          (s.stocks.set i { st with cards := st.cards.set j c }).get? i2
            = s.stocks.get? i2) := by
  have hcont : st.containsCard c = true := (findIdx?_spec hst).2 st hget
  obtain ⟨j, hj⟩ := any_findIdx?_isSome hcont
  have hjlt : j < st.cards.length := (findIdx?_spec hj).1
  refine ⟨j, hj, ?_, List.length_set .., get?_set_self hjlt, ?_, ?_⟩
  · unfold setCardVisible
    dsimp only
    rw [hel]
    dsimp only
    rw [dataStep_splices hupd
      ((getCardStock_congr c (pre_stocks s el.ref c
        (visible.getD (isCardVisibleVal c).truthy) settings)).trans hst)
      (by rw [pre_stocks]; exact hget) hj]
    dsimp only
    rw [pre_stocks]
  · intro k hk
    exact List.get?_set_ne c st.cards (Ne.symm hk)
  · intro i2 hi2
    exact List.get?_set_ne _ s.stocks (Ne.symm hi2)

/-- Witness for C6 at a concrete input: updating the card-5 entry of the only
stock with a card value carrying the same id but new payload replaces the
stored value at index 0. -/
theorem setCardVisible_updates_stock_data_witness :
    (setCardVisible demoWithStock demoCard2 (some true) none).state.stocks
      = [{ cards := [demoCard2] }] := by
  obtain ⟨j, hj, hstocks, _⟩ := setCardVisible_updates_stock_data demoWithStock
    demoCard2 demoElem (some true) none 0 { cards := [demoCard] }
    (by decide) (by decide) rfl rfl
  have hj0 : (some j : Option Nat) = some 0 := by
    rw [← hj]
    decide
  cases hj0
  rw [hstocks]
  decide

/-- Claim C7: for every card whose element exists (and is the only attached
element carrying that id), removeCard frees the identity: getCardElement then
returns no element, a subsequent createCardElement for the same id succeeds
without the duplicate-identity error, and a second removeCard of the same
card is a no-op that changes nothing. -/
theorem removeCard_frees_identity (s : State) (c : Card) (el : Elem) (v : Bool)
    (hel : getCardElement s c = some el)
    (hsole : ∀ e ∈ s.elems, e.attached = true → e.id = getId c → e.ref = el.ref) :
    getCardElement (removeCard s c).state c = none
    ∧ (createCardElement (removeCard s c).state c v).err = none
    ∧ removeCard (removeCard s c).state c =
        { state := (removeCard s c).state, events := [], err := none,
          retRef := none } := by
  have hel2 : getElementById s (getId c) = some el := hel
  have helems : (removeCard s c).state.elems =
      s.elems.map (fun e => if e.ref == el.ref then
        { e with id := "deleted" ++ getId c, attached := false } else e) := by
    unfold removeCard
    dsimp only
    rw [hel2]
    dsimp only
    rw [removeCard_elem_transform]
    cases hcs : getCardStock s c with
    | none => rfl
    | some i =>
        cases hg : s.stocks.get? i with
        | none => dsimp only; rw [hg]; rfl
        | some st => dsimp only; rw [hg]; rfl
  have hnone : getCardElement (removeCard s c).state c = none := by
    unfold getCardElement getElementById
    rw [helems]
    apply find?_map_of_pred_false
    intro e he
    by_cases hr : (e.ref == el.ref) = true
    · rw [if_pos hr]
      simp
    · rw [if_neg (by simpa using hr)]
      cases hatt : e.attached with
      | false => simp [hatt]
      | true =>
          simp only [hatt, Bool.true_and]
          rw [beq_eq_false_iff_ne]
          intro hid
          exact hr (by simp [hsole e he hatt hid])
  have hnone2 : getElementById (removeCard s c).state (getId c) = none := hnone
  refine ⟨hnone, ?_, ?_⟩
  · unfold createCardElement
    rw [hnone]
  · exact removeCard_noop hnone2

/-- Witness for C7 at a concrete input: after removing the card-5 element
from the state holding it and its stock, the identity is freed, re-creation
succeeds, and a second removal is a no-op. -/
theorem removeCard_frees_identity_witness :
    getCardElement (removeCard demoWithStock demoCard).state demoCard = none
    ∧ (createCardElement (removeCard demoWithStock demoCard).state demoCard true).err = none
    ∧ removeCard (removeCard demoWithStock demoCard).state demoCard =
        { state := (removeCard demoWithStock demoCard).state, events := [],
          err := none, retRef := none } :=
  removeCard_frees_identity demoWithStock demoCard demoElem true
    (by decide) (by decide)

/-- Claim C2: for every card with a materialized element (in a quiescent
state with no pending timers), setCardVisible with visible false and default
options sets the rendered side to back synchronously, emits no hook call, and
schedules the setupFrontDiv refresh exactly 500 time units later, after which
the front face content becomes the new card value; setCardVisible with
visible true and default options runs setupFrontDiv synchronously; neither
call touches the back face content or schedules a back refresh. -/
theorem setCardVisible_flip_timing (s : State) (c : Card) (el : Elem)
    (hel : getCardElement s c = some el)
    (href : getElemByRef s el.ref = some el)
    (htasks : s.tasks = []) :
    getElemByRef (setCardVisible s c (some false) none).state el.ref
        = some { el with side := Side.back }
    ∧ (setCardVisible s c (some false) none).events = []
    ∧ (setCardVisible s c (some false) none).state.tasks
        = [⟨s.now + 500, el.ref, .refreshFront c⟩]
    ∧ getElemByRef (elapse (setCardVisible s c (some false) none).state 500).1 el.ref
        = some { el with side := Side.back, frontContent := some c }
    ∧ (elapse (setCardVisible s c (some false) none).state 500).2
        = [.hookSetupFront c el.ref el.attached]
    ∧ getElemByRef (setCardVisible s c (some true) none).state el.ref
        = some { el with side := Side.front, frontContent := some c }
    ∧ (setCardVisible s c (some true) none).events
        = [.hookSetupFront c el.ref el.attached]
    ∧ (setCardVisible s c (some true) none).state.tasks = [] := by
  have h1eq : setCardVisible s c (some false) none =
      dataStep { sideSet s el.ref false with
                 tasks := (sideSet s el.ref false).tasks ++
                   [⟨(sideSet s el.ref false).now + 500, el.ref, .refreshFront c⟩] }
        c [] none := by
    unfold setCardVisible
    rw [hel]
    rfl
  have hfront : getElemByRef (sideSet s el.ref true) el.ref
      = some { el with side := Side.front } := by
    rw [getElemByRef_sideSet, href]
    rfl
  have h2eq : setCardVisible s c (some true) none =
      dataStep (updateElem (sideSet s el.ref true) el.ref
          (fun e2 => { e2 with frontContent := some c }))
        c [.hookSetupFront c el.ref el.attached] none := by
    unfold setCardVisible
    rw [hel]
    show dataStep (applyFrontHook (sideSet s el.ref true) el.ref c).1 c
        ((applyFrontHook (sideSet s el.ref true) el.ref c).2 ++ []) none = _
    rw [applyFrontHook_eq c hfront]
    rfl
  have hA : getElemByRef (setCardVisible s c (some false) none).state el.ref
      = some { el with side := Side.back } := by
    rw [h1eq, getElemByRef_dataStep]
    show getElemByRef (sideSet s el.ref false) el.ref = _
    rw [getElemByRef_sideSet, href]
    rfl
  have hC : (setCardVisible s c (some false) none).state.tasks
      = [⟨s.now + 500, el.ref, .refreshFront c⟩] := by
    rw [h1eq, dataStep_tasks]
    show (sideSet s el.ref false).tasks ++ _ = _
    rw [sideSet_tasks, htasks]
    rfl
  have hnow : (setCardVisible s c (some false) none).state.now = s.now := by
    rw [h1eq, dataStep_now]
    rfl
  have hE := elapse_single hC (by rw [hnow])
  have hbase : getElemByRef
      { (setCardVisible s c (some false) none).state with
        tasks := [],
        now := (setCardVisible s c (some false) none).state.now + 500 } el.ref
      = some { el with side := Side.back } := hA
  refine ⟨hA, ?_, hC, ?_, ?_, ?_, ?_, ?_⟩
  · rw [h1eq, dataStep_events]
  · rw [hE]
    unfold runTask
    dsimp only
    rw [applyFrontHook_eq c hbase]
    dsimp only
    rw [getElemByRef_setFront, hbase]
    rfl
  · rw [hE]
    unfold runTask
    dsimp only
    rw [applyFrontHook_eq c hbase]
  · rw [h2eq, getElemByRef_dataStep, getElemByRef_setFront, hfront]
    rfl
  · rw [h2eq, dataStep_events]
  · rw [h2eq, dataStep_tasks, updateElem_tasks, sideSet_tasks, htasks]

/-- Witness for C2 at a concrete input: flipping the card-5 element face-down
with the updated card value defers the front refresh (the front content still
holds the old value, one task is due at time 500) and the content carries the
new value once the delay has elapsed. -/
theorem setCardVisible_flip_timing_witness :
    getElemByRef (setCardVisible demoWithStock demoCard2 (some false) none).state 0
        = some { demoElem with side := Side.back }
    ∧ (setCardVisible demoWithStock demoCard2 (some false) none).state.tasks
        = [⟨500, 0, .refreshFront demoCard2⟩]
    ∧ getElemByRef
        (elapse (setCardVisible demoWithStock demoCard2 (some false) none).state 500).1 0
        = some { demoElem with side := Side.back, frontContent := some demoCard2 } := by
  have h := setCardVisible_flip_timing demoWithStock demoCard2 demoElem
    (by decide) (by decide) rfl
  exact ⟨h.1, h.2.2.1, h.2.2.2.1⟩

end BgaCards
